import Mathlib

/-!
Shallow embedding of the ride-sharing economics engine (`src/temp.py`,
class `RideShareEconomics` and its helpers).  Python floats are modelled
as exact rationals; the `float('inf')` sentinel for break-even rides is
an explicit constructor; Python `None` for the break-even month is
`Option.none`.  The cost-breakdown dict (insertion ordered) is a list of
label/amount pairs.
-/

namespace RideShare

/-- The revenue-share constants from `RideShareEconomics.__init__`:
3% to the aggregator. -/
def revenue_share_aggregator : ℚ := 3 / 100

/-- 93% to the fleet owner. -/
def revenue_share_fleet : ℚ := 93 / 100

/-- The validated parameter bundle (`params` dict in the source). -/
structure Params where
  avg_ticket_size : ℚ
  rides_per_day : ℚ
  working_days : ℚ
  utilization_rate : ℚ
  driver_salary : ℚ
  num_agg_drivers : ℚ
  agg_driver_acquisition_cost : ℚ
  agg_ops_salary : ℚ
  driver_churn_rate : ℚ
  num_fleet_drivers : ℚ
  fleet_driver_acquisition_cost : ℚ
  ev_cost : ℚ
  ev_maintenance : ℚ
  ev_fuel_cost : ℚ
  tax_rate : ℚ
  fixed_costs : ℚ
  deriving Repr, DecidableEq

/-- The spec's validity conditions on a bundle (spec section 3): positive
ticket size, rides and working days, percentages in range, everything
else non-negative. -/
structure ValidParams (p : Params) : Prop where
  avg_ticket_size_pos : 0 < p.avg_ticket_size
  rides_per_day_pos : 0 < p.rides_per_day
  working_days_pos : 0 < p.working_days
  utilization_rate_lb : 0 ≤ p.utilization_rate
  utilization_rate_ub : p.utilization_rate ≤ 100
  driver_salary_nonneg : 0 ≤ p.driver_salary
  num_agg_drivers_nonneg : 0 ≤ p.num_agg_drivers
  agg_driver_acquisition_cost_nonneg : 0 ≤ p.agg_driver_acquisition_cost
  agg_ops_salary_nonneg : 0 ≤ p.agg_ops_salary
  driver_churn_rate_lb : 0 ≤ p.driver_churn_rate
  driver_churn_rate_ub : p.driver_churn_rate ≤ 100
  num_fleet_drivers_nonneg : 0 ≤ p.num_fleet_drivers
  fleet_driver_acquisition_cost_nonneg : 0 ≤ p.fleet_driver_acquisition_cost
  ev_cost_nonneg : 0 ≤ p.ev_cost
  ev_maintenance_nonneg : 0 ≤ p.ev_maintenance
  ev_fuel_cost_nonneg : 0 ≤ p.ev_fuel_cost
  tax_rate_lb : 0 ≤ p.tax_rate
  tax_rate_ub : p.tax_rate ≤ 100
  fixed_costs_nonneg : 0 ≤ p.fixed_costs

/-- `break_even_rides` is either the `float('inf')` sentinel or a finite
rides-per-month figure. -/
inductive BreakEvenRides where
  | infinite : BreakEvenRides
  | finite : ℚ → BreakEvenRides
  deriving Repr, DecidableEq

/-- The `monthly_projections` dict of `calculate_monthly_projections`. -/
structure MonthlyProjections where
  month : List ℕ
  total_turnover : List ℚ
  net_revenue : List ℚ
  total_costs : List ℚ
  gross_profit : List ℚ
  profit_per_driver : List ℚ
  cumulative_profit : List ℚ
  deriving Repr, DecidableEq

/-- The `BusinessMetrics` dataclass.  `ev_payback_months` defaults to 0
in the dataclass and is only assigned by the fleet calculator, where it
receives the (possibly `None`) actual break-even month; we give it the
option type, with `some 0` as the aggregator's dataclass-default value. -/
structure BusinessMetrics where
  total_turnover : ℚ
  net_revenue : ℚ
  total_costs : ℚ
  gross_profit : ℚ
  profit_per_driver : ℚ
  break_even_rides : BreakEvenRides
  initial_investment : ℚ
  ev_payback_months : Option ℕ
  cost_breakdown : List (String × ℚ)
  monthly_projections : MonthlyProjections
  break_even_month : Option ℕ
  roi_percentage : ℚ
  total_3yr_profit : ℚ
  deriving Repr, DecidableEq

/-- `calculate_base_revenue`: monthly rides per driver scaled by
utilisation, times ticket size and driver count. -/
def calculate_base_revenue (avg_ticket_size rides_per_day working_days
    utilization_rate num_drivers : ℚ) : ℚ :=
  let monthly_rides := rides_per_day * working_days * utilization_rate / 100
  avg_ticket_size * monthly_rides * num_drivers

/-- The loop in `calculate_monthly_projections`:
`cumulative = -initial_investment; for i in range(months): cumulative += monthly_profit; append(cumulative)`.
The first argument of the recursion is the running `cumulative` value. -/
def cumulative_profit_loop (monthly_profit : ℚ) : ℚ → ℕ → List ℚ
  | _, 0 => []
  | cumulative, n + 1 =>
      (cumulative + monthly_profit) ::
        cumulative_profit_loop monthly_profit (cumulative + monthly_profit) n

/-- `calculate_monthly_projections`: constant per-month series plus the
running cumulative-profit series seeded at `-initial_investment`. -/
def calculate_monthly_projections (monthly_profit monthly_costs monthly_revenue
    monthly_turnover num_drivers initial_investment : ℚ)
    (months : ℕ) : MonthlyProjections where
  month := (List.range months).map (fun i => i + 1)
  total_turnover := List.replicate months monthly_turnover
  net_revenue := List.replicate months monthly_revenue
  total_costs := List.replicate months monthly_costs
  gross_profit := List.replicate months monthly_profit
  profit_per_driver := List.replicate months (monthly_profit / max num_drivers 1)
  cumulative_profit := cumulative_profit_loop monthly_profit (-initial_investment) months

/-! ### Aggregator model (`calculate_aggregator_model`) -/

/-- Aggregator turnover (`base_revenue`). -/
def agg_base_revenue (p : Params) : ℚ :=
  calculate_base_revenue p.avg_ticket_size p.rides_per_day p.working_days
    p.utilization_rate p.num_agg_drivers

/-- Aggregator `net_revenue = base_revenue * 0.03`. -/
def agg_net_revenue (p : Params) : ℚ :=
  agg_base_revenue p * revenue_share_aggregator

/-- Aggregator `monthly_acquisition_cost`: amortised over expected tenure
`100 / churn` when churn is positive, else 0. -/
def agg_monthly_acquisition_cost (p : Params) : ℚ :=
  if p.driver_churn_rate > 0 then
    let expected_tenure_months := 100 / p.driver_churn_rate
    p.agg_driver_acquisition_cost * p.num_agg_drivers / expected_tenure_months
  else 0

/-- Aggregator `driver_salaries = 0` (drivers are independent earners). -/
def agg_driver_salaries : ℚ := 0

/-- Aggregator `profit_before_tax`. -/
def agg_profit_before_tax (p : Params) : ℚ :=
  agg_net_revenue p - (agg_monthly_acquisition_cost p + agg_driver_salaries +
    p.agg_ops_salary + p.fixed_costs)

/-- Aggregator `tax_amount = max(0, profit_before_tax * tax_rate / 100)`. -/
def agg_tax_amount (p : Params) : ℚ :=
  max 0 (agg_profit_before_tax p * p.tax_rate / 100)

/-- Aggregator `total_costs` (tax included). -/
def agg_total_costs (p : Params) : ℚ :=
  agg_monthly_acquisition_cost p + agg_driver_salaries + p.agg_ops_salary +
    p.fixed_costs + agg_tax_amount p

/-- Aggregator `gross_profit = net_revenue - total_costs`. -/
def agg_gross_profit (p : Params) : ℚ :=
  agg_net_revenue p - agg_total_costs p

/-- `calculate_aggregator_model`, assembling the metrics exactly as the
source does. -/
def calculate_aggregator_model (p : Params) : BusinessMetrics :=
  let base_revenue := agg_base_revenue p
  let net_revenue := agg_net_revenue p
  let monthly_acquisition_cost := agg_monthly_acquisition_cost p
  let driver_salaries := agg_driver_salaries
  let ops_salary := p.agg_ops_salary
  let fixed_costs := p.fixed_costs
  let tax_amount := agg_tax_amount p
  let total_costs := agg_total_costs p
  let cost_breakdown : List (String × ℚ) :=
    [( "Driver Salaries", driver_salaries),
     ( "Driver Acquisition (Monthly)", monthly_acquisition_cost),
     ( "Ops Team Salary", ops_salary),
     ( "Fixed Costs", fixed_costs),
     ( "Taxes", tax_amount)]
  let gross_profit := agg_gross_profit p
  let profit_per_driver := gross_profit / max p.num_agg_drivers 1
  let break_even_rides :=
    if gross_profit ≤ 0 then BreakEvenRides.infinite
    else BreakEvenRides.finite
      (total_costs / (p.avg_ticket_size * revenue_share_aggregator))
  let break_even_month : Option ℕ :=
    if gross_profit ≤ 0 then none else some 1
  let monthly_projections :=
    calculate_monthly_projections gross_profit total_costs net_revenue
      base_revenue p.num_agg_drivers 0 36
  let total_3yr_profit := gross_profit * 36
  let roi_percentage := total_3yr_profit / 1 * 100
  { total_turnover := base_revenue
    net_revenue := net_revenue
    total_costs := total_costs
    gross_profit := gross_profit
    profit_per_driver := profit_per_driver
    break_even_rides := break_even_rides
    initial_investment := 0
    ev_payback_months := some 0
    cost_breakdown := cost_breakdown
    monthly_projections := monthly_projections
    break_even_month := break_even_month
    roi_percentage := roi_percentage
    total_3yr_profit := total_3yr_profit }

/-! ### Fleet model (`calculate_fleet_model`) -/

/-- Fleet turnover (`base_revenue`). -/
def fleet_base_revenue (p : Params) : ℚ :=
  calculate_base_revenue p.avg_ticket_size p.rides_per_day p.working_days
    p.utilization_rate p.num_fleet_drivers

/-- Fleet `net_revenue = base_revenue * 0.93`. -/
def fleet_net_revenue (p : Params) : ℚ :=
  fleet_base_revenue p * revenue_share_fleet

/-- Fleet `monthly_acquisition_cost`, amortised as in the aggregator. -/
def fleet_monthly_acquisition_cost (p : Params) : ℚ :=
  if p.driver_churn_rate > 0 then
    let expected_tenure_months := 100 / p.driver_churn_rate
    p.fleet_driver_acquisition_cost * p.num_fleet_drivers / expected_tenure_months
  else 0

/-- Fleet `driver_salaries = driver_salary * num_fleet_drivers`. -/
def fleet_driver_salaries (p : Params) : ℚ :=
  p.driver_salary * p.num_fleet_drivers

/-- Fleet `initial_ev_investment = ev_cost * num_fleet_drivers`. -/
def initial_ev_investment (p : Params) : ℚ :=
  p.ev_cost * p.num_fleet_drivers

/-- Fleet `maintenance_costs = ev_maintenance * num_fleet_drivers`. -/
def fleet_maintenance_costs (p : Params) : ℚ :=
  p.ev_maintenance * p.num_fleet_drivers

/-- Fleet `fuel_costs`, scaled by utilisation. -/
def fleet_fuel_costs (p : Params) : ℚ :=
  p.ev_fuel_cost * p.num_fleet_drivers * (p.utilization_rate / 100)

/-- Fleet `profit_before_tax`. -/
def fleet_profit_before_tax (p : Params) : ℚ :=
  fleet_net_revenue p - (fleet_monthly_acquisition_cost p + fleet_driver_salaries p +
    fleet_maintenance_costs p + fleet_fuel_costs p + p.fixed_costs)

/-- Fleet `tax_amount = max(0, profit_before_tax * tax_rate / 100)`. -/
def fleet_tax_amount (p : Params) : ℚ :=
  max 0 (fleet_profit_before_tax p * p.tax_rate / 100)

/-- Fleet `total_monthly_costs` (tax included, EV capex excluded). -/
def fleet_total_monthly_costs (p : Params) : ℚ :=
  fleet_monthly_acquisition_cost p + fleet_driver_salaries p +
    fleet_maintenance_costs p + fleet_fuel_costs p + p.fixed_costs +
    fleet_tax_amount p

/-- Fleet `gross_profit = net_revenue - total_monthly_costs`. -/
def fleet_gross_profit (p : Params) : ℚ :=
  fleet_net_revenue p - fleet_total_monthly_costs p

/-- The scan over `enumerate(cumulative_profits)` that finds the first
index `i` (0-based) whose entry is `>= 0` and returns `i + 1`; the second
argument is the running enumeration index. -/
def first_nonneg_month : List ℚ → ℕ → Option ℕ
  | [], _ => none
  | profit :: rest, i =>
      if profit ≥ 0 then some (i + 1) else first_nonneg_month rest (i + 1)

/-- The superseded ceil-based break-even estimate
`int(np.ceil(initial_ev_investment / gross_profit)) + 1` (only computed
when `gross_profit > 0`); the returned metrics never use it. -/
def fleet_break_even_month_estimate (p : Params) : Option ℤ :=
  if fleet_gross_profit p ≤ 0 then none
  else some (⌈initial_ev_investment p / fleet_gross_profit p⌉ + 1)

/-- `calculate_fleet_model`, assembling the metrics exactly as the
source does.  `cumulative_profits[-1]` is total, as the list always has
36 entries; `getLastD 0` models it (the default is never reached). -/
def calculate_fleet_model (p : Params) : BusinessMetrics :=
  let base_revenue := fleet_base_revenue p
  let net_revenue := fleet_net_revenue p
  let monthly_acquisition_cost := fleet_monthly_acquisition_cost p
  let driver_salaries := fleet_driver_salaries p
  let initial_investment := initial_ev_investment p
  let maintenance_costs := fleet_maintenance_costs p
  let fuel_costs := fleet_fuel_costs p
  let fixed_costs := p.fixed_costs
  let tax_amount := fleet_tax_amount p
  let total_monthly_costs := fleet_total_monthly_costs p
  let cost_breakdown : List (String × ℚ) :=
    [( "Driver Salaries", driver_salaries),
     ( "Driver Acquisition (Monthly)", monthly_acquisition_cost),
     ( "EV Investment (One-time)", initial_investment),
     ( "Maintenance", maintenance_costs),
     ( "Fuel/Mileage", fuel_costs),
     ( "Fixed Costs", fixed_costs),
     ( "Taxes", tax_amount)]
  let gross_profit := fleet_gross_profit p
  let profit_per_driver := gross_profit / max p.num_fleet_drivers 1
  let contribution_per_ride := p.avg_ticket_size * revenue_share_fleet
  let break_even_rides :=
    if gross_profit ≤ 0 then BreakEvenRides.infinite
    else BreakEvenRides.finite (total_monthly_costs / contribution_per_ride)
  let monthly_projections :=
    calculate_monthly_projections gross_profit total_monthly_costs net_revenue
      base_revenue p.num_fleet_drivers initial_investment 36
  let cumulative_profits := monthly_projections.cumulative_profit
  let break_even_month_actual := first_nonneg_month cumulative_profits 0
  let total_3yr_profit := cumulative_profits.getLastD 0
  let roi_percentage :=
    if initial_investment > 0 then total_3yr_profit / initial_investment * 100
    else 0
  { total_turnover := base_revenue
    net_revenue := net_revenue
    total_costs := total_monthly_costs
    gross_profit := gross_profit
    profit_per_driver := profit_per_driver
    break_even_rides := break_even_rides
    initial_investment := initial_investment
    ev_payback_months := break_even_month_actual
    cost_breakdown := cost_breakdown
    monthly_projections := monthly_projections
    break_even_month := break_even_month_actual
    roi_percentage := roi_percentage
    total_3yr_profit := total_3yr_profit }

/-! ### Helper lemmas -/

theorem cumulative_profit_loop_length (mp : ℚ) :
    ∀ (n : ℕ) (c : ℚ), (cumulative_profit_loop mp c n).length = n := by
  intro n
  induction n with
  | zero => intro c; rfl
  | succ n ih =>
      intro c
      simp [cumulative_profit_loop, ih]

theorem cumulative_profit_loop_get? (mp : ℚ) :
    ∀ (n : ℕ) (c : ℚ) (i : ℕ), i < n →
      (cumulative_profit_loop mp c n).get? i = some (c + ((i : ℚ) + 1) * mp) := by
  intro n
  induction n with
  | zero => intro c i h; omega
  | succ n ih =>
      intro c i h
      cases i with
      | zero =>
          simp [cumulative_profit_loop]
      | succ i =>
          have hi : i < n := by omega
          have := ih (c + mp) i hi
          simp only [cumulative_profit_loop, List.get?_cons_succ, this]
          congr 1
          push_cast
          ring

theorem first_nonneg_month_eq_none (l : List ℚ) :
    ∀ i, first_nonneg_month l i = none ↔ ∀ c ∈ l, c < 0 := by
  induction l with
  | nil => intro i; simp [first_nonneg_month]
  | cons a rest ih =>
      intro i
      by_cases ha : a ≥ 0
      · simp [first_nonneg_month, ha]
      · simp only [first_nonneg_month, if_neg ha, ih (i + 1), List.mem_cons]
        constructor
        · intro h c hc
          rcases hc with hc | hc
          · exact hc ▸ lt_of_not_ge ha
          · exact h c hc
        · intro h c hc
          exact h c (Or.inr hc)

theorem first_nonneg_month_eq_some (l : List ℚ) :
    ∀ i k, first_nonneg_month l i = some k ↔
      ∃ j, k = i + j + 1 ∧ (∃ c, l.get? j = some c ∧ 0 ≤ c) ∧
        ∀ m c, m < j → l.get? m = some c → c < 0 := by
  induction l with
  | nil => intro i k; simp [first_nonneg_month]
  | cons a rest ih =>
      intro i k
      by_cases ha : a ≥ 0
      · simp only [first_nonneg_month, if_pos ha, Option.some.injEq]
        constructor
        · intro hk
          refine ⟨0, by omega, ⟨a, rfl, ha⟩, ?_⟩
          intro m c hm
          omega
        · rintro ⟨j, hk, ⟨c, hget, hc⟩, hall⟩
          cases j with
          | zero => omega
          | succ j =>
              have := hall 0 a (by omega) rfl
              exact absurd this (not_lt.mpr ha)
      · simp only [first_nonneg_month, if_neg ha, ih (i + 1) k]
        constructor
        · rintro ⟨j, hk, ⟨c, hget, hc⟩, hall⟩
          refine ⟨j + 1, by omega, ⟨c, by simpa using hget, hc⟩, ?_⟩
          intro m d hm hget'
          cases m with
          | zero =>
              have : a = d := by simpa using hget'
              exact this ▸ lt_of_not_ge ha
          | succ m =>
              exact hall m d (by omega) (by simpa using hget')
        · rintro ⟨j, hk, ⟨c, hget, hc⟩, hall⟩
          cases j with
          | zero =>
              have : a = c := by simpa using hget
              exact absurd hc (by simpa [this] using ha)
          | succ j =>
              refine ⟨j, by omega, ⟨c, by simpa using hget, hc⟩, ?_⟩
              intro m d hm hget'
              exact hall (m + 1) d (by omega) (by simpa using hget')

/-- The spec's Scenario-1 bundle (with the source's sidebar defaults for
the fleet-side fields). -/
def exampleParams : Params where
  avg_ticket_size := 80
  rides_per_day := 20
  working_days := 26
  utilization_rate := 100
  driver_salary := 25000
  num_agg_drivers := 100
  agg_driver_acquisition_cost := 2000
  agg_ops_salary := 75000
  driver_churn_rate := 10
  num_fleet_drivers := 10
  fleet_driver_acquisition_cost := 5000
  ev_cost := 180000
  ev_maintenance := 1500
  ev_fuel_cost := 4000
  tax_rate := 0
  fixed_costs := 50000

/-! ### Claim theorems -/

/-- The aggregator gross profit on the Scenario-1 bundle is the spec's
−20,200. -/
theorem exampleParams_agg_gross_profit :
    agg_gross_profit exampleParams = -20200 := by
  norm_num [agg_gross_profit, agg_net_revenue, agg_base_revenue,
    calculate_base_revenue, agg_total_costs, agg_tax_amount,
    agg_profit_before_tax, agg_monthly_acquisition_cost, agg_driver_salaries,
    revenue_share_aggregator, exampleParams]

/-- C1, counterexample: on the valid Scenario-1 bundle the aggregator's
gross profit is non-positive and `calculate_aggregator_model` returns
`break_even_month = None`, not 1 — the claim that the field is 1 even
when gross profit is non-positive is false on the code. -/
theorem C1_break_even_month_not_always_one :
    ValidParams exampleParams
    ∧ (calculate_aggregator_model exampleParams).gross_profit ≤ 0
    ∧ (calculate_aggregator_model exampleParams).break_even_month ≠ some 1 := by
  refine ⟨by constructor <;> norm_num [exampleParams], ?_, ?_⟩
  · show agg_gross_profit exampleParams ≤ 0
    rw [exampleParams_agg_gross_profit]
    norm_num
  · show (if agg_gross_profit exampleParams ≤ 0 then (none : Option ℕ)
        else some 1) ≠ some 1
    rw [if_pos (by rw [exampleParams_agg_gross_profit]; norm_num)]
    simp

/-- C1, amended: the aggregator's `break_even_month` is 1 exactly when
gross profit is positive, and absent (`None`) exactly when gross profit
is non-positive — it is not hardcoded to 1 independently of profit. -/
theorem C1_agg_break_even_month_policy (p : Params) :
    ((calculate_aggregator_model p).break_even_month = some 1
      ↔ 0 < (calculate_aggregator_model p).gross_profit)
    ∧ ((calculate_aggregator_model p).break_even_month = none
      ↔ (calculate_aggregator_model p).gross_profit ≤ 0) := by
  by_cases h : agg_gross_profit p ≤ 0
  · simp [calculate_aggregator_model, h, not_lt.mpr h]
  · simp [calculate_aggregator_model, h, lt_of_not_ge h]

/-- C1 amended-claim witness: on the Scenario-1 bundle (gross profit
−20,200) the aggregator's break-even month is absent. -/
theorem C1_policy_witness :
    (calculate_aggregator_model exampleParams).break_even_month = none :=
  (C1_agg_break_even_month_policy exampleParams).2.mpr
    (by show agg_gross_profit exampleParams ≤ 0
        rw [exampleParams_agg_gross_profit]; norm_num)

/-- C2: in both models, `gross_profit = net_revenue - total_costs`
exactly, and `total_costs` is the sum of the pre-tax cost components and
the tax amount. -/
theorem C2_gross_profit_eq_net_revenue_sub_total_costs (p : Params) :
    ((calculate_aggregator_model p).gross_profit
        = (calculate_aggregator_model p).net_revenue
            - (calculate_aggregator_model p).total_costs
      ∧ (calculate_aggregator_model p).total_costs
        = agg_monthly_acquisition_cost p + agg_driver_salaries
            + p.agg_ops_salary + p.fixed_costs + agg_tax_amount p)
    ∧ ((calculate_fleet_model p).gross_profit
        = (calculate_fleet_model p).net_revenue
            - (calculate_fleet_model p).total_costs
      ∧ (calculate_fleet_model p).total_costs
        = fleet_monthly_acquisition_cost p + fleet_driver_salaries p
            + fleet_maintenance_costs p + fleet_fuel_costs p + p.fixed_costs
            + fleet_tax_amount p) :=
  ⟨⟨rfl, rfl⟩, rfl, rfl⟩

/-- C3: in both models the tax amount is non-negative, and it is zero
whenever pre-tax profit is non-positive; the `Taxes` line of the cost
breakdown is exactly this amount. -/
theorem C3_tax_nonneg_and_zero_without_profit (p : Params)
    (h : ValidParams p) :
    (0 ≤ agg_tax_amount p
      ∧ (agg_profit_before_tax p ≤ 0 → agg_tax_amount p = 0)
      ∧ ( "Taxes", agg_tax_amount p) ∈ (calculate_aggregator_model p).cost_breakdown)
    ∧ (0 ≤ fleet_tax_amount p
      ∧ (fleet_profit_before_tax p ≤ 0 → fleet_tax_amount p = 0)
      ∧ ( "Taxes", fleet_tax_amount p) ∈ (calculate_fleet_model p).cost_breakdown) := by
  have hr : 0 ≤ p.tax_rate := h.tax_rate_lb
  refine ⟨⟨le_max_left 0 _, ?_, by simp [calculate_aggregator_model]⟩,
          le_max_left 0 _, ?_, by simp [calculate_fleet_model]⟩
  · intro hp
    have h1 : agg_profit_before_tax p * p.tax_rate ≤ 0 := by nlinarith
    exact max_eq_left (by linarith)
  · intro hp
    have h1 : fleet_profit_before_tax p * p.tax_rate ≤ 0 := by nlinarith
    exact max_eq_left (by linarith)

/-- C3 witness: the theorem instantiated on the valid Scenario-1 bundle,
where the aggregator's pre-tax profit is negative and its tax is 0. -/
theorem C3_witness :
    (0 ≤ agg_tax_amount exampleParams
      ∧ (agg_profit_before_tax exampleParams ≤ 0 → agg_tax_amount exampleParams = 0)
      ∧ ( "Taxes", agg_tax_amount exampleParams)
          ∈ (calculate_aggregator_model exampleParams).cost_breakdown)
    ∧ (0 ≤ fleet_tax_amount exampleParams
      ∧ (fleet_profit_before_tax exampleParams ≤ 0 → fleet_tax_amount exampleParams = 0)
      ∧ ( "Taxes", fleet_tax_amount exampleParams)
          ∈ (calculate_fleet_model exampleParams).cost_breakdown) :=
  C3_tax_nonneg_and_zero_without_profit exampleParams
    (by constructor <;> norm_num [exampleParams])

/-- C4: `calculate_monthly_projections` over the 36-month horizon yields
constant turnover/revenue/cost/profit/profit-per-driver series, and the
cumulative-profit series starts at `monthly_profit - initial_investment`
and grows by `monthly_profit` every month. -/
theorem C4_monthly_projections_shape
    (mp mc mr mt nd ii : ℚ) :
    (calculate_monthly_projections mp mc mr mt nd ii 36).total_turnover
        = List.replicate 36 mt
    ∧ (calculate_monthly_projections mp mc mr mt nd ii 36).net_revenue
        = List.replicate 36 mr
    ∧ (calculate_monthly_projections mp mc mr mt nd ii 36).total_costs
        = List.replicate 36 mc
    ∧ (calculate_monthly_projections mp mc mr mt nd ii 36).gross_profit
        = List.replicate 36 mp
    ∧ (calculate_monthly_projections mp mc mr mt nd ii 36).profit_per_driver
        = List.replicate 36 (mp / max nd 1)
    ∧ (calculate_monthly_projections mp mc mr mt nd ii 36).cumulative_profit.length
        = 36
    ∧ (calculate_monthly_projections mp mc mr mt nd ii 36).cumulative_profit.get? 0
        = some (mp - ii)
    ∧ ∀ i : ℕ, 0 < i → i < 36 →
        (calculate_monthly_projections mp mc mr mt nd ii 36).cumulative_profit.get? i
          = ((calculate_monthly_projections mp mc mr mt nd ii
                36).cumulative_profit.get? (i - 1)).map (fun c => c + mp) := by
  refine ⟨rfl, rfl, rfl, rfl, rfl, cumulative_profit_loop_length mp 36 _, ?_, ?_⟩
  · rw [show (calculate_monthly_projections mp mc mr mt nd ii 36).cumulative_profit
        = cumulative_profit_loop mp (-ii) 36 from rfl]
    rw [cumulative_profit_loop_get? mp 36 (-ii) 0 (by norm_num)]
    congr 1
    push_cast
    ring
  · intro i h0 h36
    rw [show (calculate_monthly_projections mp mc mr mt nd ii 36).cumulative_profit
        = cumulative_profit_loop mp (-ii) 36 from rfl]
    rw [cumulative_profit_loop_get? mp 36 (-ii) i h36,
      cumulative_profit_loop_get? mp 36 (-ii) (i - 1) (by omega)]
    have hcast : ((i - 1 : ℕ) : ℚ) = (i : ℚ) - 1 := by
      have : (1 : ℕ) ≤ i := h0
      push_cast [this]
      ring
    simp only [Option.map_some']
    rw [hcast]
    congr 1
    ring

/-- C4 witness: the theorem instantiated at concrete arguments, read off
at months 1 and 2. -/
theorem C4_witness :
    (calculate_monthly_projections 5 4 3 2 1 7 36).cumulative_profit.get? 0
        = some (5 - 7)
    ∧ (calculate_monthly_projections 5 4 3 2 1 7 36).cumulative_profit.get? 1
        = ((calculate_monthly_projections 5 4 3 2 1
              7 36).cumulative_profit.get? (1 - 1)).map (fun c => c + 5) :=
  ⟨(C4_monthly_projections_shape 5 4 3 2 1 7).2.2.2.2.2.2.1,
   (C4_monthly_projections_shape 5 4 3 2 1 7).2.2.2.2.2.2.2 1
     (by norm_num) (by norm_num)⟩

/-- C6: in both models, non-positive gross profit yields the infinite
break-even-rides sentinel, and positive gross profit yields
`total_costs / (avg_ticket_size * share)` with share 0.03 (aggregator)
and 0.93 (fleet). -/
theorem C6_break_even_rides_policy (p : Params) :
    ((calculate_aggregator_model p).gross_profit ≤ 0
      → (calculate_aggregator_model p).break_even_rides = BreakEvenRides.infinite)
    ∧ (0 < (calculate_aggregator_model p).gross_profit
      → (calculate_aggregator_model p).break_even_rides
          = BreakEvenRides.finite ((calculate_aggregator_model p).total_costs
              / (p.avg_ticket_size * revenue_share_aggregator)))
    ∧ ((calculate_fleet_model p).gross_profit ≤ 0
      → (calculate_fleet_model p).break_even_rides = BreakEvenRides.infinite)
    ∧ (0 < (calculate_fleet_model p).gross_profit
      → (calculate_fleet_model p).break_even_rides
          = BreakEvenRides.finite ((calculate_fleet_model p).total_costs
              / (p.avg_ticket_size * revenue_share_fleet))) := by
  refine ⟨?_, ?_, ?_, ?_⟩ <;> intro h
  · have h' : agg_gross_profit p ≤ 0 := h
    show (if agg_gross_profit p ≤ 0 then BreakEvenRides.infinite else _)
        = BreakEvenRides.infinite
    rw [if_pos h']
  · have h' : 0 < agg_gross_profit p := h
    show (if agg_gross_profit p ≤ 0 then BreakEvenRides.infinite else _) = _
    rw [if_neg (not_le.mpr h')]
    rfl
  · have h' : fleet_gross_profit p ≤ 0 := h
    show (if fleet_gross_profit p ≤ 0 then BreakEvenRides.infinite else _)
        = BreakEvenRides.infinite
    rw [if_pos h']
  · have h' : 0 < fleet_gross_profit p := h
    show (if fleet_gross_profit p ≤ 0 then BreakEvenRides.infinite else _) = _
    rw [if_neg (not_le.mpr h')]
    rfl

/-- C6 witness: on the Scenario-1 bundle the aggregator (gross profit
−20,200) reports infinite break-even rides. -/
theorem C6_witness :
    (calculate_aggregator_model exampleParams).break_even_rides
      = BreakEvenRides.infinite :=
  (C6_break_even_rides_policy exampleParams).1
    (by show agg_gross_profit exampleParams ≤ 0
        rw [exampleParams_agg_gross_profit]; norm_num)

/-- C8: the 36 aggregator per-month gross-profit projection entries sum
exactly to `total_3yr_profit`, and both equal 36 times the monthly gross
profit. -/
theorem C8_agg_projection_round_trip (p : Params) :
    ((calculate_aggregator_model p).monthly_projections.gross_profit).sum
        = (calculate_aggregator_model p).total_3yr_profit
    ∧ (calculate_aggregator_model p).total_3yr_profit
        = 36 * (calculate_aggregator_model p).gross_profit := by
  constructor
  · show (List.replicate 36 (agg_gross_profit p)).sum = agg_gross_profit p * 36
    rw [List.sum_replicate, nsmul_eq_mul]
    ring
  · show agg_gross_profit p * 36 = 36 * agg_gross_profit p
    ring

/-- C10: the aggregator cost-breakdown values sum to `total_costs`, the
fleet cost-breakdown values sum to `total_costs + initial_investment`,
and the one-time EV capex line appears in the fleet breakdown. -/
theorem C10_cost_breakdown_sums (p : Params) :
    ((calculate_aggregator_model p).cost_breakdown.map Prod.snd).sum
        = (calculate_aggregator_model p).total_costs
    ∧ ((calculate_fleet_model p).cost_breakdown.map Prod.snd).sum
        = (calculate_fleet_model p).total_costs
            + (calculate_fleet_model p).initial_investment
    ∧ ( "EV Investment (One-time)", initial_ev_investment p)
        ∈ (calculate_fleet_model p).cost_breakdown := by
  refine ⟨?_, ?_, by simp [calculate_fleet_model]⟩
  · show agg_driver_salaries + (agg_monthly_acquisition_cost p +
        (p.agg_ops_salary + (p.fixed_costs + (agg_tax_amount p + 0))))
      = agg_total_costs p
    rw [agg_total_costs]
    ring
  · show fleet_driver_salaries p + (fleet_monthly_acquisition_cost p +
        (initial_ev_investment p + (fleet_maintenance_costs p +
          (fleet_fuel_costs p + (p.fixed_costs + (fleet_tax_amount p + 0))))))
      = fleet_total_monthly_costs p + initial_ev_investment p
    rw [fleet_total_monthly_costs]
    ring

theorem cumulative_profit_loop_mem (mp : ℚ) :
    ∀ (n : ℕ) (c x : ℚ), x ∈ cumulative_profit_loop mp c n →
      ∃ i : ℕ, i < n ∧ x = c + ((i : ℚ) + 1) * mp := by
  intro n
  induction n with
  | zero => intro c x hx; simp [cumulative_profit_loop] at hx
  | succ n ih =>
      intro c x hx
      rw [cumulative_profit_loop] at hx
      rcases List.mem_cons.mp hx with h | h
      · exact ⟨0, by omega, by rw [h]; push_cast; ring⟩
      · obtain ⟨i, hi, hx'⟩ := ih (c + mp) x h
        exact ⟨i + 1, by omega, by rw [hx']; push_cast; ring⟩

/-- The fleet gross profit on the Scenario-1 bundle is 26,880. -/
theorem exampleParams_fleet_gross_profit :
    fleet_gross_profit exampleParams = 26880 := by
  norm_num [fleet_gross_profit, fleet_net_revenue, fleet_base_revenue,
    calculate_base_revenue, fleet_total_monthly_costs, fleet_tax_amount,
    fleet_profit_before_tax, fleet_monthly_acquisition_cost,
    fleet_driver_salaries, fleet_maintenance_costs, fleet_fuel_costs,
    revenue_share_fleet, exampleParams]

/-- The fleet initial EV investment on the Scenario-1 bundle is
1,800,000. -/
theorem exampleParams_initial_ev_investment :
    initial_ev_investment exampleParams = 1800000 := by
  norm_num [initial_ev_investment, exampleParams]

/-- C5: the fleet model's returned `break_even_month` is exactly the
first 1-based index at which the cumulative-profit sequence is ≥ 0,
absent when every entry is negative; on the Scenario-1 bundle the
superseded ceil-based estimate (68) differs from the returned value
(`None`), so the estimate does not determine the field. -/
theorem C5_fleet_break_even_month_is_first_nonneg_scan (p : Params) :
    (∀ k : ℕ, (calculate_fleet_model p).break_even_month = some k ↔
        ∃ j : ℕ, k = j + 1
          ∧ (∃ c, ((calculate_fleet_model p).monthly_projections.cumulative_profit).get? j
                = some c ∧ 0 ≤ c)
          ∧ ∀ i c, i < j →
              ((calculate_fleet_model p).monthly_projections.cumulative_profit).get? i
                = some c → c < 0)
    ∧ ((calculate_fleet_model p).break_even_month = none ↔
        ∀ c ∈ (calculate_fleet_model p).monthly_projections.cumulative_profit, c < 0)
    ∧ fleet_break_even_month_estimate exampleParams = some 68
    ∧ (calculate_fleet_model exampleParams).break_even_month = none := by
  refine ⟨?_, ?_, ?_, ?_⟩
  · intro k
    show first_nonneg_month (cumulative_profit_loop (fleet_gross_profit p)
        (-(initial_ev_investment p)) 36) 0 = some k ↔
      ∃ j : ℕ, k = j + 1
        ∧ (∃ c, (cumulative_profit_loop (fleet_gross_profit p)
              (-(initial_ev_investment p)) 36).get? j = some c ∧ 0 ≤ c)
        ∧ ∀ i c, i < j → (cumulative_profit_loop (fleet_gross_profit p)
              (-(initial_ev_investment p)) 36).get? i = some c → c < 0
    rw [first_nonneg_month_eq_some]
    simp only [Nat.zero_add]
  · show first_nonneg_month (cumulative_profit_loop (fleet_gross_profit p)
        (-(initial_ev_investment p)) 36) 0 = none ↔
      ∀ c ∈ cumulative_profit_loop (fleet_gross_profit p)
          (-(initial_ev_investment p)) 36, c < 0
    exact first_nonneg_month_eq_none _ 0
  · unfold fleet_break_even_month_estimate
    rw [exampleParams_fleet_gross_profit, exampleParams_initial_ev_investment]
    norm_num
    have hceil : ⌈(1875 / 28 : ℚ)⌉ = (67 : ℤ) := by
      rw [Int.ceil_eq_iff]
      constructor <;> norm_num
    rw [hceil]
    norm_num
  · show first_nonneg_month
        (cumulative_profit_loop (fleet_gross_profit exampleParams)
          (-(initial_ev_investment exampleParams)) 36) 0 = none
    rw [first_nonneg_month_eq_none]
    intro c hc
    obtain ⟨i, hi, hc'⟩ := cumulative_profit_loop_mem _ 36 _ c hc
    rw [hc', exampleParams_fleet_gross_profit, exampleParams_initial_ev_investment]
    have hcast : (i : ℚ) ≤ 35 := by exact_mod_cast Nat.le_of_lt_succ hi
    linarith

/-- C5 witness: the scan characterisation instantiated on the
Scenario-1 bundle, whose 36 cumulative-profit entries are all negative. -/
theorem C5_witness :
    fleet_break_even_month_estimate exampleParams = some 68
    ∧ (calculate_fleet_model exampleParams).break_even_month = none :=
  ⟨(C5_fleet_break_even_month_is_first_nonneg_scan exampleParams).2.2.1,
   (C5_fleet_break_even_month_is_first_nonneg_scan exampleParams).2.2.2⟩

/-- C9: for the fleet model, with the same initial investment and a
strictly larger gross profit, the break-even month (when defined for
both bundles) does not increase. -/
theorem C9_fleet_break_even_month_monotone (p1 p2 : Params)
    (hg : (calculate_fleet_model p1).gross_profit
      < (calculate_fleet_model p2).gross_profit)
    (hI : (calculate_fleet_model p1).initial_investment
      = (calculate_fleet_model p2).initial_investment)
    (m1 m2 : ℕ)
    (h1 : (calculate_fleet_model p1).break_even_month = some m1)
    (h2 : (calculate_fleet_model p2).break_even_month = some m2) :
    m2 ≤ m1 := by
  have hg' : fleet_gross_profit p1 < fleet_gross_profit p2 := hg
  have hI' : initial_ev_investment p1 = initial_ev_investment p2 := hI
  have h1' : first_nonneg_month (cumulative_profit_loop (fleet_gross_profit p1)
      (-(initial_ev_investment p1)) 36) 0 = some m1 := h1
  have h2' : first_nonneg_month (cumulative_profit_loop (fleet_gross_profit p2)
      (-(initial_ev_investment p2)) 36) 0 = some m2 := h2
  rw [first_nonneg_month_eq_some] at h1' h2'
  obtain ⟨j1, hm1, ⟨c1, hget1, hc1⟩, hall1⟩ := h1'
  obtain ⟨j2, hm2, ⟨c2, hget2, hc2⟩, hall2⟩ := h2'
  have hj1 : j1 < 36 := by
    obtain ⟨hlen, -⟩ := List.get?_eq_some.mp hget1
    rwa [cumulative_profit_loop_length] at hlen
  by_contra hcon
  have hj : j1 < j2 := by omega
  have hval2 : (cumulative_profit_loop (fleet_gross_profit p2)
      (-(initial_ev_investment p2)) 36).get? j1
      = some (-(initial_ev_investment p2) + ((j1 : ℚ) + 1) * fleet_gross_profit p2) :=
    cumulative_profit_loop_get? _ 36 _ j1 hj1
  have hneg := hall2 j1 _ hj hval2
  have hval1 : (cumulative_profit_loop (fleet_gross_profit p1)
      (-(initial_ev_investment p1)) 36).get? j1
      = some (-(initial_ev_investment p1) + ((j1 : ℚ) + 1) * fleet_gross_profit p1) :=
    cumulative_profit_loop_get? _ 36 _ j1 hj1
  have hc1eq : c1 = -(initial_ev_investment p1) + ((j1 : ℚ) + 1) * fleet_gross_profit p1 :=
    Option.some.inj (hget1.symm.trans hval1)
  have hpos : (0 : ℚ) < (j1 : ℚ) + 1 := by positivity
  rw [← hI'] at hneg
  have hmul := mul_lt_mul_of_pos_left hg' hpos
  linarith

/-- C7: zero churn means zero amortised monthly acquisition cost in both
models (infinite expected tenure, not a division error), and the
corresponding cost-breakdown line is 0. -/
theorem C7_zero_churn_zero_acquisition_cost (p : Params)
    (h : p.driver_churn_rate = 0) :
    agg_monthly_acquisition_cost p = 0
    ∧ fleet_monthly_acquisition_cost p = 0
    ∧ ( "Driver Acquisition (Monthly)", (0 : ℚ))
        ∈ (calculate_aggregator_model p).cost_breakdown
    ∧ ( "Driver Acquisition (Monthly)", (0 : ℚ))
        ∈ (calculate_fleet_model p).cost_breakdown := by
  have ha : agg_monthly_acquisition_cost p = 0 := by
    simp [agg_monthly_acquisition_cost, h]
  have hf : fleet_monthly_acquisition_cost p = 0 := by
    simp [fleet_monthly_acquisition_cost, h]
  refine ⟨ha, hf, ?_, ?_⟩
  · simp [calculate_aggregator_model, ha]
  · simp [calculate_fleet_model, hf]

/-- The Scenario-1 bundle with the churn rate set to zero. -/
def exampleParamsZeroChurn : Params :=
  { exampleParams with driver_churn_rate := 0 }

/-- C7 witness: the theorem instantiated on the zero-churn bundle. -/
theorem C7_witness :
    agg_monthly_acquisition_cost exampleParamsZeroChurn = 0
    ∧ fleet_monthly_acquisition_cost exampleParamsZeroChurn = 0
    ∧ ( "Driver Acquisition (Monthly)", (0 : ℚ))
        ∈ (calculate_aggregator_model exampleParamsZeroChurn).cost_breakdown
    ∧ ( "Driver Acquisition (Monthly)", (0 : ℚ))
        ∈ (calculate_fleet_model exampleParamsZeroChurn).cost_breakdown :=
  C7_zero_churn_zero_acquisition_cost exampleParamsZeroChurn rfl

/-- If the first cumulative entry is already non-negative the scan stops
at month 1. -/
theorem first_nonneg_month_head (mp c : ℚ) (n : ℕ) (h : 0 ≤ c + mp) :
    first_nonneg_month (cumulative_profit_loop mp c (n + 1)) 0 = some 1 := by
  simp [cumulative_profit_loop, first_nonneg_month, h]

/-- An all-zero bundle: the fleet model has zero gross profit and zero
investment, so cumulative profit is 0 from month 1 on. -/
def fleetParamsSmall : Params where
  avg_ticket_size := 0
  rides_per_day := 0
  working_days := 0
  utilization_rate := 0
  driver_salary := 0
  num_agg_drivers := 0
  agg_driver_acquisition_cost := 0
  agg_ops_salary := 0
  driver_churn_rate := 0
  num_fleet_drivers := 0
  fleet_driver_acquisition_cost := 0
  ev_cost := 0
  ev_maintenance := 0
  ev_fuel_cost := 0
  tax_rate := 0
  fixed_costs := 0

/-- A cost-free one-driver bundle with positive fleet gross profit and
zero investment. -/
def fleetParamsBig : Params :=
  { fleetParamsSmall with
      avg_ticket_size := 100
      rides_per_day := 10
      working_days := 20
      utilization_rate := 100
      num_fleet_drivers := 1 }

theorem fleetParamsSmall_break_even :
    (calculate_fleet_model fleetParamsSmall).break_even_month = some 1 := by
  show first_nonneg_month
      (cumulative_profit_loop (fleet_gross_profit fleetParamsSmall)
        (-(initial_ev_investment fleetParamsSmall)) (35 + 1)) 0 = some 1
  apply first_nonneg_month_head
  norm_num [fleet_gross_profit, fleet_net_revenue, fleet_base_revenue,
    calculate_base_revenue, fleet_total_monthly_costs, fleet_tax_amount,
    fleet_profit_before_tax, fleet_monthly_acquisition_cost,
    fleet_driver_salaries, fleet_maintenance_costs, fleet_fuel_costs,
    initial_ev_investment, revenue_share_fleet, fleetParamsSmall]

theorem fleetParamsBig_break_even :
    (calculate_fleet_model fleetParamsBig).break_even_month = some 1 := by
  show first_nonneg_month
      (cumulative_profit_loop (fleet_gross_profit fleetParamsBig)
        (-(initial_ev_investment fleetParamsBig)) (35 + 1)) 0 = some 1
  apply first_nonneg_month_head
  norm_num [fleet_gross_profit, fleet_net_revenue, fleet_base_revenue,
    calculate_base_revenue, fleet_total_monthly_costs, fleet_tax_amount,
    fleet_profit_before_tax, fleet_monthly_acquisition_cost,
    fleet_driver_salaries, fleet_maintenance_costs, fleet_fuel_costs,
    initial_ev_investment, revenue_share_fleet, fleetParamsBig, fleetParamsSmall]

/-- C9 witness: the monotonicity theorem instantiated on two concrete
bundles, both breaking even at month 1. -/
theorem C9_witness :
    (calculate_fleet_model fleetParamsSmall).break_even_month = some 1
    ∧ (calculate_fleet_model fleetParamsBig).break_even_month = some 1
    ∧ 1 ≤ 1 :=
  ⟨fleetParamsSmall_break_even, fleetParamsBig_break_even,
   C9_fleet_break_even_month_monotone fleetParamsSmall fleetParamsBig
     (by show fleet_gross_profit fleetParamsSmall < fleet_gross_profit fleetParamsBig
         norm_num [fleet_gross_profit, fleet_net_revenue, fleet_base_revenue,
           calculate_base_revenue, fleet_total_monthly_costs, fleet_tax_amount,
           fleet_profit_before_tax, fleet_monthly_acquisition_cost,
           fleet_driver_salaries, fleet_maintenance_costs, fleet_fuel_costs,
           revenue_share_fleet, fleetParamsBig, fleetParamsSmall])
     (by show initial_ev_investment fleetParamsSmall = initial_ev_investment fleetParamsBig
         norm_num [initial_ev_investment, fleetParamsBig, fleetParamsSmall])
     1 1 fleetParamsSmall_break_even fleetParamsBig_break_even⟩

end RideShare
